import Mathlib

/-!
Shallow embedding of the dragonfly-mainframe core: the job assignment
scheduler (src/mainframe/endpoints/job.py, get_jobs), the report
eligibility validator (src/mainframe/server.py, report_package and
send_report_email) and the configuration surface
(src/mainframe/constants.py, class Mainframe).

Timestamps are modelled as integers; the database is a list of scan
records; SQL queries become filter / sort / take over that list, and the
ORM mutation of fetched rows becomes a map that rewrites the selected
rows. An HTTPException raised by an endpoint is an Except.error; the
transaction that is rolled back on an exception leaves the database
unchanged.
-/

namespace Dragonfly

/-- Status enumeration (mainframe.models: QUEUED, PENDING, FINISHED). -/
inductive Status where
  | QUEUED
  | PENDING
  | FINISHED
deriving DecidableEq

/-- One row of the scans table (the Scan / Package ORM model): identity,
natural key, lifecycle status, timestamps, worker ownership, scan
results, matched rule names and report timestamp. -/
structure Scan where
  scan_id : Nat
  name : String
  version : String
  status : Status
  queued_at : Int
  pending_at : Option Int
  pending_by : Option String
  finished_at : Option Int
  inspector_url : Option String
  rules : List String
  reported_at : Option Int
  download_urls : List String
deriving DecidableEq

/-- Job descriptor returned by get_jobs (JobResult schema). -/
structure JobResult where
  name : String
  version : String
  distributions : List String
  hash : String
deriving DecidableEq

/-- The WHERE clause of get_jobs: status == QUEUED, or
(pending_at < now - job_timeout AND status == PENDING). In SQL the
comparison `pending_at < cutoff` is false when pending_at is NULL. -/
def eligible (now job_timeout : Int) (s : Scan) : Bool :=
  s.status == Status.QUEUED ||
    ((match s.pending_at with
      | some p => decide (p < now - job_timeout)
      | none => false) && s.status == Status.PENDING)

/-- Ascending comparison on pending_at with NULLS FIRST: a NULL sorts
strictly before any real timestamp. -/
def pendingAtLt : Option Int → Option Int → Bool
  | none, none => false
  | none, some _ => true
  | some _, none => false
  | some a, some b => decide (a < b)

/-- The ORDER BY key of get_jobs: pending_at ascending NULLS FIRST,
then queued_at ascending (strict lexicographic comparison). -/
def scanBefore (a b : Scan) : Bool :=
  pendingAtLt a.pending_at b.pending_at ||
    (a.pending_at == b.pending_at && decide (a.queued_at < b.queued_at))

/-- Insert one scan into a list sorted by scanBefore. -/
def orderInsert (x : Scan) : List Scan → List Scan
  | [] => [x]
  | y :: ys => if scanBefore x y then x :: y :: ys else y :: orderInsert x ys

/-- Sort a candidate set by the ORDER BY key of get_jobs (ties between
equal keys are unspecified by SQL; any consistent order is faithful). -/
def orderScans : List Scan → List Scan
  | [] => []
  | x :: xs => orderInsert x (orderScans xs)

/-- The mutation get_jobs applies to each selected row: status = PENDING,
pending_at = now, pending_by = the authenticated worker. -/
def assignScan (now : Int) (worker : String) (s : Scan) : Scan :=
  { s with status := Status.PENDING, pending_at := some now,
           pending_by := some worker }

/-- The rows selected by the get_jobs query: filter by eligibility,
sort by the ORDER BY key, LIMIT batch. -/
def selectedScans (now job_timeout : Int) (batch : Nat) (db : List Scan) :
    List Scan :=
  (orderScans (db.filter (eligible now job_timeout))).take batch

/-- get_jobs (POST /jobs): select up to batch eligible scans in query
order, set each to PENDING with fresh pending_at / pending_by, and
return one JobResult per selected scan, stamped with the current rules
commit. Returns the response body and the database after commit. -/
def get_jobs (now job_timeout : Int) (worker rules_commit : String)
    (batch : Nat) (db : List Scan) : List JobResult × List Scan :=
  let sel := selectedScans now job_timeout batch db
  let ids := sel.map Scan.scan_id
  let response := sel.map fun s =>
    JobResult.mk s.name s.version s.download_urls rules_commit
  let db2 := db.map fun s =>
    if ids.contains s.scan_id then assignScan now worker s else s
  (response, db2)

/-- Field names declared on the Mainframe settings class in
src/mainframe/constants.py (lines 17-29). -/
def mainframeSettingsFields : List String :=
  ["email_recipient", "bcc_recipients", "db_url", "dragonfly_github_token"]

/-- Settings attributes read from mainframe_settings by get_jobs
(src/mainframe/endpoints/job.py line 52). -/
def getJobsSettingsReads : List String :=
  ["job_timeout"]

/-- Request body of POST /report (ReportPackageBody): package name and
version plus the optional inspector_url / additional_information
overrides. (The PyPI metadata lookup that precedes the database logic is
an external collaborator and is out of scope; name and version are taken
as already resolved.) -/
structure ReportRequest where
  name : String
  version : String
  inspector_url : Option String
  additional_information : Option String
deriving DecidableEq

/-- Typed errors of report_package: 404 no record, 409 already reported,
400 missing field (carrying the field name), and a ValueError escaping
send_report_email. -/
inductive ReportError where
  | NotFound
  | AlreadyReported
  | MissingField (field : String)
  | ValueError (msg : String)
deriving DecidableEq

/-- The argument tuple report_package hands to send_report_email:
resolved name, version, inspector URL, additional information and the
matched-rules list. -/
structure ReportPayload where
  package_name : String
  package_version : String
  inspector_url : String
  additional_information : Option String
  rules_matched : List String
deriving DecidableEq

/-- The fields rendered into the report email body by send_report_email
(additional information and the rule list already substituted with
their placeholder strings when falsy). -/
structure ReportEmail where
  package_name : String
  package_version : String
  inspector_url : String
  additional_information : String
  rules_matched : String
deriving DecidableEq

/-- The Python expression `x or d` for an optional string x: None and
the empty string are falsy and yield the default. -/
def strOrDefault (x : Option String) (d : String) : String :=
  match x with
  | none => d
  | some s => if s == "" then d else s

/-- The Python expression `s or d` for a plain string s. -/
def nonEmptyOr (s d : String) : String :=
  if s == "" then d else s

/-- send_report_email: raises ValueError when the report carries zero
matched rules and no additional information; otherwise renders the email
content with placeholder strings for absent values. -/
def send_report_email (package_name package_version inspector_url : String)
    (additional_information : Option String) (rules_matched : List String) :
    Except ReportError ReportEmail :=
  if additional_information == none && rules_matched.length == 0 then
    Except.error (ReportError.ValueError
      "Cannot report a package that matched 0 rules without additional information")
  else
    Except.ok
      { package_name := package_name
        package_version := package_version
        inspector_url := inspector_url
        additional_information :=
          strOrDefault additional_information "No user description provided"
        rules_matched :=
          nonEmptyOr (String.intercalate ", " rules_matched) "No rules matched" }

/-- The row lookup of report_package: SELECT the scan whose name and
version equal the request's. -/
def findScan (name version : String) : List Scan → Option Scan
  | [] => none
  | s :: ss =>
      if s.name == name && s.version == version then some s
      else findScan name version ss

/-- Set reported_at on the row with the given scan_id (the ORM mutation
`row.reported_at = now` followed by commit). -/
def setReported (now : Int) (id : Nat) (db : List Scan) : List Scan :=
  db.map fun s =>
    if s.scan_id == id then { s with reported_at := some now } else s

/-- report_package (POST /report): look the record up by name+version
(404 when absent), reject an already reported record (409), resolve the
inspector URL from the request or the row (400 when both are null),
require matched rules when the request omits additional_information
(400) and collect them into rules_matched only in that omitted case,
dispatch the email and set reported_at. Returns the payload handed to
send_report_email, the rendered email and the database after commit. -/
def report_package (now : Int) (body : ReportRequest) (db : List Scan) :
    Except ReportError (ReportPayload × ReportEmail × List Scan) :=
  match findScan body.name body.version db with
  | none => Except.error ReportError.NotFound
  | some row =>
    if row.reported_at.isSome then Except.error ReportError.AlreadyReported
    else
      match (match body.inspector_url with
             | none => row.inspector_url
             | some u => some u) with
      | none => Except.error (ReportError.MissingField "inspector_url")
      | some inspector_url =>
        if body.additional_information == none && row.rules.length == 0 then
          Except.error (ReportError.MissingField "additional_information")
        else
          let rules_matched : List String :=
            match body.additional_information with
            | none => row.rules
            | some _ => []
          let payload : ReportPayload :=
            { package_name := body.name
              package_version := body.version
              inspector_url := inspector_url
              additional_information := body.additional_information
              rules_matched := rules_matched }
          match send_report_email body.name body.version inspector_url
              body.additional_information rules_matched with
          | Except.error e => Except.error e
          | Except.ok email =>
              Except.ok (payload, email, setReported now row.scan_id db)

/-- The database as the caller sees it after report_package: the
committed state on success, the rolled-back (unchanged) state when the
endpoint raised. -/
def report_package_db (now : Int) (body : ReportRequest) (db : List Scan) :
    List Scan :=
  match report_package now body db with
  | Except.ok (_, _, db2) => db2
  | Except.error _ => db

/-- Whether a report_package result is the ValueError raised by the
send_report_email evidence guard. -/
def isValueError (r : Except ReportError (ReportPayload × ReportEmail × List Scan)) :
    Bool :=
  match r with
  | Except.error (ReportError.ValueError _) => true
  | _ => false

/-- Projection of the payload's matched-rules list out of a
report_package result. -/
def payloadRules
    (r : Except ReportError (ReportPayload × ReportEmail × List Scan)) :
    Option (List String) :=
  match r with
  | Except.ok (p, _, _) => some p.rules_matched
  | Except.error _ => none

/-- A PENDING scan whose pending_at (20) is older than now (100) minus a
JOB_TIMEOUT of 10, with the oldest timestamps of the fixture set. -/
def pendingStale : Scan :=
  { scan_id := 1, name := "pendingpkg", version := "1.0"
    status := Status.PENDING, queued_at := 0, pending_at := some 20
    pending_by := some "w0", finished_at := none, inspector_url := none
    rules := [], reported_at := none, download_urls := [] }

/-- A freshly QUEUED scan (null pending_at) queued later (at 50) than
every timestamp of pendingStale. -/
def queuedFresh : Scan :=
  { scan_id := 2, name := "queuedpkg", version := "1.0"
    status := Status.QUEUED, queued_at := 50, pending_at := none
    pending_by := none, finished_at := none, inspector_url := none
    rules := [], reported_at := none, download_urls := [] }

/-- A QUEUED, never scanned record used for the report fixtures. -/
def queuedUnscanned : Scan :=
  { scan_id := 3, name := "pkg2", version := "1.0"
    status := Status.QUEUED, queued_at := 0, pending_at := none
    pending_by := none, finished_at := none, inspector_url := none
    rules := [], reported_at := none, download_urls := [] }

/-- A FINISHED record with one matched rule and a stored inspector URL. -/
def finishedRuleA : Scan :=
  { scan_id := 4, name := "pkg3", version := "2.0"
    status := Status.FINISHED, queued_at := 0, pending_at := some 5
    pending_by := some "w1", finished_at := some 9
    inspector_url := some "http://x", rules := ["rule_a"]
    reported_at := none, download_urls := [] }

/-- A FINISHED record with no matched rules and a stored inspector URL. -/
def finishedNoRules : Scan :=
  { scan_id := 5, name := "pkg4", version := "3.0"
    status := Status.FINISHED, queued_at := 0, pending_at := some 5
    pending_by := some "w1", finished_at := some 9
    inspector_url := some "http://y", rules := []
    reported_at := none, download_urls := [] }

/-- A FINISHED record that has already been reported. -/
def finishedReported : Scan :=
  { scan_id := 6, name := "pkg5", version := "4.0"
    status := Status.FINISHED, queued_at := 0, pending_at := some 5
    pending_by := some "w1", finished_at := some 9
    inspector_url := some "http://z", rules := ["rule_b"]
    reported_at := some 30, download_urls := [] }

/-- C1, as stated, is false: with now = 100 and JOB_TIMEOUT = 10, the
candidate set holding the timed-out PENDING record pendingStale
(pending_at 20 < 90) and the QUEUED record queuedFresh, the ORDER BY
pending_at NULLS FIRST places the QUEUED record first (its null
pending_at sorts before the real timestamp), and get_jobs with batch = 1
returns the QUEUED record, not the timed-out PENDING one. -/
theorem C1_counterexample :
    orderScans [pendingStale, queuedFresh] = [queuedFresh, pendingStale] ∧
    (get_jobs 100 10 "w" "rc" 1 [pendingStale, queuedFresh]).1 =
      [JobResult.mk "queuedpkg" "1.0" [] "rc"] ∧
    (get_jobs 100 10 "w" "rc" 1 [pendingStale, queuedFresh]).1 ≠
      [JobResult.mk "pendingpkg" "1.0" [] "rc"] := by
  refine ⟨by decide, by decide, by decide⟩

/-- C1 amended: in a candidate set holding a timed-out PENDING record p
and a QUEUED record q with null pending_at, the ordering places q
before p (null pending_at sorts first), in either presentation order,
and get_jobs with batch = 1 returns the QUEUED record. -/
theorem C1_amended (now timeout t : Int) (w rc : String) (p q : Scan)
    (hps : p.status = Status.PENDING) (hpa : p.pending_at = some t)
    (ht : t < now - timeout)
    (hqs : q.status = Status.QUEUED) (hqa : q.pending_at = none) :
    orderScans [p, q] = [q, p] ∧ orderScans [q, p] = [q, p] ∧
    (get_jobs now timeout w rc 1 [p, q]).1 =
      [JobResult.mk q.name q.version q.download_urls rc] ∧
    (get_jobs now timeout w rc 1 [q, p]).1 =
      [JobResult.mk q.name q.version q.download_urls rc] := by
  have hord : orderScans [p, q] = [q, p] := by
    simp [orderScans, orderInsert, scanBefore, pendingAtLt, hpa, hqa]
  have hord2 : orderScans [q, p] = [q, p] := by
    simp [orderScans, orderInsert, scanBefore, pendingAtLt, hpa, hqa]
  have hep : eligible now timeout p = true := by
    simp [eligible, hps, hpa, ht]
  have heq : eligible now timeout q = true := by
    simp [eligible, hqs]
  refine ⟨hord, hord2, ?_, ?_⟩ <;>
    simp [get_jobs, selectedScans, List.filter, hep, heq, hord, hord2]

/-- C1 amended, witness at the concrete fixtures. -/
theorem C1_amended_witness :
    orderScans [pendingStale, queuedFresh] = [queuedFresh, pendingStale] ∧
    orderScans [queuedFresh, pendingStale] = [queuedFresh, pendingStale] ∧
    (get_jobs 100 10 "w" "rc" 1 [pendingStale, queuedFresh]).1 =
      [JobResult.mk queuedFresh.name queuedFresh.version
        queuedFresh.download_urls "rc"] ∧
    (get_jobs 100 10 "w" "rc" 1 [queuedFresh, pendingStale]).1 =
      [JobResult.mk queuedFresh.name queuedFresh.version
        queuedFresh.download_urls "rc"] :=
  C1_amended 100 10 20 "w" "rc" pendingStale queuedFresh
    rfl rfl (by decide) rfl rfl

/-- C4: the code contradicts the claim. get_jobs reads the job_timeout
attribute from the settings object (job.py line 52), but the Mainframe
settings class (constants.py lines 17-29) declares no job_timeout field,
so the read raises AttributeError instead of succeeding. -/
theorem C4_job_timeout_missing_from_settings :
    "job_timeout" ∈ getJobsSettingsReads ∧
    "job_timeout" ∉ mainframeSettingsFields := by
  decide

/-- C2, as stated, is false: report_package checks no status. On the
QUEUED record queuedUnscanned, a request supplying both inspector_url
and additional_information succeeds and sets reported_at while the
status is still QUEUED, so a record with non-null reported_at need not
be FINISHED. -/
theorem C2_counterexample :
    (report_package 50
      ⟨"pkg2", "1.0", some "http://a", some "notes"⟩
      [queuedUnscanned]).isOk = true ∧
    report_package_db 50
      ⟨"pkg2", "1.0", some "http://a", some "notes"⟩
      [queuedUnscanned] =
      [{ queuedUnscanned with reported_at := some 50 }] ∧
    queuedUnscanned.status = Status.QUEUED := by
  refine ⟨by decide, by decide, rfl⟩

/-- C2 amended: report_package performs no status check; on any
not-yet-reported record (QUEUED and PENDING included) a request that
supplies both inspector_url and additional_information succeeds and
sets reported_at, leaving every other field (status included)
unchanged. -/
theorem C2_amended (now : Int) (s : Scan) (u a : String)
    (hrep : s.reported_at = none) :
    (report_package now ⟨s.name, s.version, some u, some a⟩ [s]).isOk
      = true ∧
    report_package_db now ⟨s.name, s.version, some u, some a⟩ [s] =
      [{ s with reported_at := some now }] := by
  have hfind : findScan s.name s.version [s] = some s := by
    simp [findScan]
  have hrun : report_package now ⟨s.name, s.version, some u, some a⟩ [s] =
      Except.ok
        (⟨s.name, s.version, u, some a, []⟩,
         ⟨s.name, s.version, u, strOrDefault (some a) "No user description provided",
          nonEmptyOr (String.intercalate ", " ([] : List String)) "No rules matched"⟩,
         setReported now s.scan_id [s]) := by
    simp [report_package, hfind, hrep, send_report_email]
  refine ⟨by simp [hrun, Except.isOk, Except.toBool], ?_⟩
  simp [report_package_db, hrun, setReported]

/-- C2 amended, witness: the QUEUED fixture reported with both fields
supplied. -/
theorem C2_amended_witness :
    (report_package 50
      ⟨queuedUnscanned.name, queuedUnscanned.version,
        some "http://a", some "notes"⟩ [queuedUnscanned]).isOk = true ∧
    report_package_db 50
      ⟨queuedUnscanned.name, queuedUnscanned.version,
        some "http://a", some "notes"⟩ [queuedUnscanned] =
      [{ queuedUnscanned with reported_at := some 50 }] :=
  C2_amended 50 queuedUnscanned "http://a" "notes" rfl

/-- C3, as stated, is false: on the record finishedRuleA whose stored
matched rules are ["rule_a"], a request that supplies
additional_information succeeds but the payload's matched-rules list is
empty, not the stored list (rules_matched is only filled from the
database when additional_information is omitted). -/
theorem C3_counterexample :
    payloadRules (report_package 50
      ⟨"pkg3", "2.0", none, some "notes"⟩ [finishedRuleA]) = some [] ∧
    finishedRuleA.rules = ["rule_a"] ∧
    some finishedRuleA.rules ≠
      payloadRules (report_package 50
        ⟨"pkg3", "2.0", none, some "notes"⟩ [finishedRuleA]) := by
  refine ⟨by decide, rfl, by decide⟩

/-- C3 amended: for every report request that supplies
additional_information, on a record that exists, is not yet reported
and has a stored inspector URL, report_package succeeds and the
matched-rules list in the payload is empty — the record's stored
matched_rules are not copied into the payload. -/
theorem C3_amended (now : Int) (s : Scan) (u a : String)
    (hrep : s.reported_at = none) (hins : s.inspector_url = some u) :
    payloadRules
      (report_package now ⟨s.name, s.version, none, some a⟩ [s]) =
      some [] ∧
    (report_package now ⟨s.name, s.version, none, some a⟩ [s]).isOk
      = true := by
  have hfind : findScan s.name s.version [s] = some s := by
    simp [findScan]
  have hrun : report_package now ⟨s.name, s.version, none, some a⟩ [s] =
      Except.ok
        (⟨s.name, s.version, u, some a, []⟩,
         ⟨s.name, s.version, u, strOrDefault (some a) "No user description provided",
          nonEmptyOr (String.intercalate ", " ([] : List String)) "No rules matched"⟩,
         setReported now s.scan_id [s]) := by
    simp [report_package, hfind, hrep, hins, send_report_email]
  refine ⟨by simp [hrun, payloadRules], by simp [hrun, Except.isOk, Except.toBool]⟩

/-- C3 amended, witness: finishedRuleA reported with
additional_information supplied yields an empty matched-rules payload
even though the stored rules are ["rule_a"]. -/
theorem C3_amended_witness :
    payloadRules (report_package 50
      ⟨finishedRuleA.name, finishedRuleA.version, none, some "notes"⟩
      [finishedRuleA]) = some [] ∧
    (report_package 50
      ⟨finishedRuleA.name, finishedRuleA.version, none, some "notes"⟩
      [finishedRuleA]).isOk = true :=
  C3_amended 50 finishedRuleA "http://x" "notes" rfl rfl

/-- C5: on a FINISHED record with matched rules ["rule_a"], stored
inspector_url "http://x" and no prior report, a request supplying
neither inspector_url nor additional_information succeeds: the payload
carries the stored inspector URL and matched rules ["rule_a"], the
dispatched email renders the fixed placeholder for additional
information, and reported_at is set on the record. -/
theorem C5_default_report (now : Int) (s : Scan)
    (hst : s.status = Status.FINISHED) (hrules : s.rules = ["rule_a"])
    (hins : s.inspector_url = some "http://x")
    (hrep : s.reported_at = none) :
    report_package now ⟨s.name, s.version, none, none⟩ [s] =
      Except.ok
        (⟨s.name, s.version, "http://x", none, ["rule_a"]⟩,
         ⟨s.name, s.version, "http://x", "No user description provided",
          "rule_a"⟩,
         [{ s with reported_at := some now }]) := by
  have hint : String.intercalate ", " ["rule_a"] = "rule_a" := rfl
  simp [report_package, findScan, hrep, hins, hrules, send_report_email,
        strOrDefault, nonEmptyOr, setReported, hint]

/-- C5, witness at the finishedRuleA fixture. -/
theorem C5_default_report_witness :
    report_package 40
      ⟨finishedRuleA.name, finishedRuleA.version, none, none⟩
      [finishedRuleA] =
      Except.ok
        (⟨finishedRuleA.name, finishedRuleA.version, "http://x", none,
          ["rule_a"]⟩,
         ⟨finishedRuleA.name, finishedRuleA.version, "http://x",
          "No user description provided", "rule_a"⟩,
         [{ finishedRuleA with reported_at := some 40 }]) :=
  C5_default_report 40 finishedRuleA rfl rfl rfl rfl

/-- C6: on a record with no matched rules, a stored inspector URL and no
prior report, a request omitting additional_information (whether or not
it supplies an inspector_url override) fails with
MissingField additional_information and the database is unchanged. -/
theorem C6_missing_additional (now : Int) (s : Scan) (u : String)
    (bu : Option String) (hrules : s.rules = [])
    (hins : s.inspector_url = some u) (hrep : s.reported_at = none) :
    report_package now ⟨s.name, s.version, bu, none⟩ [s] =
      Except.error (ReportError.MissingField "additional_information") ∧
    report_package_db now ⟨s.name, s.version, bu, none⟩ [s] = [s] := by
  have h1 : report_package now ⟨s.name, s.version, bu, none⟩ [s] =
      Except.error (ReportError.MissingField "additional_information") := by
    cases bu <;> simp [report_package, findScan, hrep, hins, hrules]
  exact ⟨h1, by simp [report_package_db, h1]⟩

/-- C6, witness at the finishedNoRules fixture. -/
theorem C6_missing_additional_witness :
    report_package 40
      ⟨finishedNoRules.name, finishedNoRules.version, none, none⟩
      [finishedNoRules] =
      Except.error (ReportError.MissingField "additional_information") ∧
    report_package_db 40
      ⟨finishedNoRules.name, finishedNoRules.version, none, none⟩
      [finishedNoRules] = [finishedNoRules] :=
  C6_missing_additional 40 finishedNoRules "http://y" none rfl rfl rfl

/-- C7: the already-reported check comes right after the existence
check and before both field resolutions, so on any database in which
the requested record exists and has non-null reported_at,
report_package fails with AlreadyReported regardless of which fields
the request supplies, leaving the database unchanged. -/
theorem C7_already_reported (now : Int) (body : ReportRequest)
    (db : List Scan) (s : Scan) (t : Int)
    (hfind : findScan body.name body.version db = some s)
    (hrep : s.reported_at = some t) :
    report_package now body db = Except.error ReportError.AlreadyReported ∧
    report_package_db now body db = db := by
  have h1 : report_package now body db =
      Except.error ReportError.AlreadyReported := by
    simp [report_package, hfind, hrep]
  exact ⟨h1, by simp [report_package_db, h1]⟩

/-- C7, witness: the reported fixture rejected even with both fields
supplied by the request. -/
theorem C7_already_reported_witness :
    report_package 60 ⟨"pkg5", "4.0", some "http://a", some "notes"⟩
      [finishedReported] = Except.error ReportError.AlreadyReported ∧
    report_package_db 60 ⟨"pkg5", "4.0", some "http://a", some "notes"⟩
      [finishedReported] = [finishedReported] :=
  C7_already_reported 60 ⟨"pkg5", "4.0", some "http://a", some "notes"⟩
    [finishedReported] finishedReported 30 rfl rfl

/-- C8: get_jobs keeps the database pointwise: every row keeps its
queued_at; a row whose scan_id is among the selected ids is rewritten
to exactly the three assignment fields (status PENDING, pending_at now,
pending_by worker) with every other field untouched, and every other
row is returned unchanged. -/
theorem C8_frame (now timeout : Int) (w rc : String) (batch : Nat)
    (db : List Scan) (i : Nat) (hi : i < db.length) :
    ∃ hj : i < ((get_jobs now timeout w rc batch db).2).length,
      (((get_jobs now timeout w rc batch db).2).get ⟨i, hj⟩).queued_at =
        (db.get ⟨i, hi⟩).queued_at ∧
      (if ((selectedScans now timeout batch db).map Scan.scan_id).contains
            ((db.get ⟨i, hi⟩).scan_id)
       then ((get_jobs now timeout w rc batch db).2).get ⟨i, hj⟩ =
          { (db.get ⟨i, hi⟩) with
            status := Status.PENDING
            pending_at := some now
            pending_by := some w }
       else ((get_jobs now timeout w rc batch db).2).get ⟨i, hj⟩ =
          db.get ⟨i, hi⟩) := by
  have h2 : (get_jobs now timeout w rc batch db).2 =
      List.map (fun s =>
        if ((selectedScans now timeout batch db).map Scan.scan_id).contains
            s.scan_id
        then assignScan now w s else s) db := rfl
  refine ⟨by simp [h2, hi], ?_⟩
  simp only [h2, List.get_eq_getElem, List.getElem_map]
  cases hcon : ((selectedScans now timeout batch db).map
      Scan.scan_id).contains ((db.get ⟨i, hi⟩).scan_id) with
  | false =>
      simp only [List.get_eq_getElem] at hcon
      simp only [hcon, Bool.false_eq_true, if_false]
      exact ⟨by first | rfl | trivial, by first | rfl | trivial⟩
  | true =>
      simp only [List.get_eq_getElem] at hcon
      simp only [hcon, if_true]
      exact ⟨by first | rfl | trivial, by first | rfl | trivial⟩

/-- C8, witness: assigning the single queued fixture rewrites exactly
the three assignment fields of that row. -/
theorem C8_frame_witness :
    ∃ hj : 0 < ((get_jobs 100 10 "w" "rc" 1 [queuedFresh]).2).length,
      ((get_jobs 100 10 "w" "rc" 1 [queuedFresh]).2).get ⟨0, hj⟩ =
        { queuedFresh with
          status := Status.PENDING
          pending_at := some 100
          pending_by := some "w" } := by
  obtain ⟨hj, hq, hsel⟩ :=
    C8_frame 100 10 "w" "rc" 1 [queuedFresh] 0 Nat.zero_lt_one
  refine ⟨hj, ?_⟩
  have hc : ((selectedScans 100 10 1 [queuedFresh]).map
      Scan.scan_id).contains (([queuedFresh].get ⟨0, Nat.zero_lt_one⟩).scan_id)
      = true := by decide
  simpa [hc] using hsel

/-- C9: the evidence guard of send_report_email never fires through the
validator. On every input, report_package either errors before dispatch
or hands send_report_email a payload whose additional information is
present or whose matched-rules list is non-empty, so the ValueError
branch is unreachable: no run of report_package returns it. -/
theorem C9_guard_unreachable (now : Int) (body : ReportRequest)
    (db : List Scan) :
    isValueError (report_package now body db) = false := by
  rw [report_package]
  split
  · rfl
  · rename_i row hfind
    split
    · rfl
    · split
      · rfl
      · rename_i u hu
        split
        · rfl
        · rename_i hguard
          cases hadd : body.additional_information with
          | some a => simp [send_report_email, hadd, isValueError]
          | none =>
            have hlen : (row.rules.length == 0) = false := by
              cases h0 : row.rules.length == 0
              · rfl
              · exact absurd (by simp [hadd, h0]) hguard
            simp [send_report_email, hadd, hlen, isValueError]

end Dragonfly
